import Mathlib

/-!
Shallow embedding of `src/main.py` (a FastAPI proxy over the Roblox catalog
API and the Rolimons price-index API), written to verify the repository's
specification claims.

Modelling conventions:
* JSON values are the inductive `Json` below; Python `None` is `Json.null`
  (JSON `null` decodes to Python `None`, so one constructor covers both).
* Python truthiness (`if not x`, `x or y`) is `Json.truthy` / `Json.orElse`.
* `time.time()` timestamps are modelled as `Int` (only differences and
  comparisons with the TTL are ever taken, so the numeric carrier is
  irrelevant to the claims).
* Network I/O is modelled by passing the upstream response (status code and
  decoded body) as an explicit argument; a function value
  `exec : Option String → HttpResp` stands for the single underlying HTTP
  exchange of one `aiohttp` request, applied to the cookie attached to it.
  The list of cookies returned by `fetch_json` records, in order, one entry
  per underlying request actually issued.
* `HTTPException` details are f-strings in the source; they are modelled by
  the structured `Detail` type whose constructors carry exactly the data the
  corresponding f-string interpolates.
-/

/-- A decoded JSON value (Python object as produced by `resp.json()`).
Python `None` and JSON `null` are both `Json.null`. Non-integral JSON
numbers do not occur in any claim and are not modelled. -/
inductive Json where
  | null : Json
  | bool : Bool → Json
  | int : Int → Json
  | str : String → Json
  | arr : List Json → Json
  | obj : List (String × Json) → Json
deriving Repr, Inhabited

/-- Python truthiness of a decoded JSON value (`bool(x)`). -/
def Json.truthy : Json → Bool
  | .null => false
  | .bool b => b
  | .int n => n != 0
  | .str s => !s.isEmpty
  | .arr xs => !xs.isEmpty
  | .obj fs => !fs.isEmpty

/-- Python `a or b`: returns `a` when truthy, else `b`. -/
def Json.orElse (a b : Json) : Json :=
  if a.truthy then a else b

/-- Python `d.get(k)` on a dict: the value at `k`, or `None` when absent.
The source only ever calls `.get` on values it treats as dicts; a non-dict
receiver would raise `AttributeError` in Python and is outside the modelled
domain (it is mapped to `None` here, and every theorem that depends on a
`.get` supplies a dict-shaped value). -/
def Json.get (j : Json) (k : String) : Json :=
  match j with
  | .obj fs =>
    match fs.find? (fun p => p.1 == k) with
    | some p => p.2
    | none => .null
  | _ => .null

/-- Python `isinstance(x, int)` on a decoded JSON value. `bool` is a
subclass of `int` in Python, so booleans pass the check. -/
def pyIsInt : Json → Bool
  | .int _ => true
  | .bool _ => true
  | _ => false

/-- The integer value of a decoded JSON value that passes
`isinstance(x, int)` (`True == 1`, `False == 0` in Python). -/
def pyToInt : Json → Int
  | .int n => n
  | .bool b => if b then 1 else 0
  | _ => 0

/-- Python `str(x)` / f-string conversion of a decoded JSON value, used only
to build URLs and messages. The rendering of containers is abstracted (no
claim inspects it). -/
def Json.pyStr : Json → String
  | .null => "None"
  | .bool b => if b then "True" else "False"
  | .int n => toString n
  | .str s => s
  | .arr _ => "[...]"
  | .obj _ => "\x7b...\x7d"

/-- `bundles[0]` (src/main.py line 184): the first element of a list. The
source only reaches this indexing after checking the value is truthy, and
only ever with a JSON array there. -/
def Json.index0 : Json → Json
  | .arr (x :: _) => x
  | _ => .null

/-- The `"https://catalog.roblox.com"` base URL (src/main.py line 16). -/
def CATALOG_BASE : String := "https://catalog.roblox.com"

/-! ## Session store (cookie helpers, src/main.py lines 27-115) -/

/-- The process-wide mutable session state: `_current_roblosecurity`
(line 32) and the content of `roblox_cookie.json` on disk (the
`ROBLOSECURITY` field read by `load_cookie_from_disk`, `none` when the file
is missing or unparsable). -/
structure SessionState where
  current : Option String
  disk : Option String
deriving Repr

/-- Python truthiness of an `Optional[str]`: `None` and `""` are falsy. -/
def optTruthy : Option String → Bool
  | none => false
  | some s => !s.isEmpty

/-- Python `str.strip()`: drop leading and trailing whitespace. -/
def pyStrip (s : String) : String :=
  String.mk (((s.data.dropWhile Char.isWhitespace).reverse.dropWhile
    Char.isWhitespace).reverse)

/-- Module-level startup (src/main.py lines 27-32 and 91-92):
`ROBLOSECURITY_COOKIE = os.getenv(...).strip()` (modelled by `pyStrip`),
a `RuntimeError` when the stripped value is empty, otherwise
`_current_roblosecurity` is initialized to the cookie and mirrored to disk
(`save_cookie_to_disk`, unconditionally reached since the value is truthy). -/
def startup (envRaw : String) : Except String SessionState :=
  let env := pyStrip envRaw
  if env.isEmpty then
    .error "ROBLOSECURITY_COOKIE nao configurado no .env"
  else
    .ok { current := some env, disk := some env }

/-- `ensure_cookie` (src/main.py lines 94-115). `env` is the module-level
`ROBLOSECURITY_COOKIE` (already stripped). Returns the cookie and the
updated process state, or the `RuntimeError` message when no cookie is
available by any path. -/
def ensure_cookie (env : String) (st : SessionState) :
    Except String (String × SessionState) :=
  if optTruthy st.current then
    .ok (st.current.getD "", st)
  else if optTruthy st.disk then
    .ok (st.disk.getD "", { st with current := st.disk })
  else if !env.isEmpty then
    .ok (env, { current := some env, disk := some env })
  else
    .error "Nenhum .ROBLOSECURITY disponivel"

/-! ## HTTP helper `fetch_json` (src/main.py lines 119-162) -/

/-- One underlying HTTP exchange: the response status and its decoded body
(`resp.json()`, falling back to the raw text — a raw-text fallback is a
`Json.str`). -/
structure HttpResp where
  status : Nat
  body : Json
deriving Repr

/-- The payload of an `HTTPException`'s `detail` f-string, one constructor
per `raise` site, carrying exactly the values the f-string interpolates:
* `authFailed s d` — `f"Roblox auth falhou {status}: {data}"` (line 154)
* `notFound u` — `f"Not found: {url}"` (line 156)
* `upstreamError s u` — `f"Upstream error {status} for {url}"` (line 158)
* `requestError s u d` — `f"Error {status} for {url}: {data}"` (line 160)
* `noBundles` — `"No bundles for this asset"` (line 182) -/
inductive Detail where
  | authFailed : Nat → Json → Detail
  | notFound : String → Detail
  | upstreamError : Nat → String → Detail
  | requestError : Nat → String → Json → Detail
  | noBundles : Detail
deriving Repr

/-- `fastapi.HTTPException(status_code=..., detail=...)`. -/
structure HTTPException where
  status_code : Nat
  detail : Detail
deriving Repr

/-- An error escaping a route handler: either a raised `HTTPException` or an
uncaught `RuntimeError` (from `ensure_cookie`). -/
inductive ApiError where
  | http : HTTPException → ApiError
  | runtime : String → ApiError
deriving Repr

/-- The status-validation chain of `fetch_json` (src/main.py lines 152-162):
401/403 → 500 auth failure; 404 → 404; ≥500 → 502; other ≥400 → the same
status; otherwise the decoded body is returned. -/
def validate_status (url : String) (status : Nat) (data : Json) :
    Except ApiError Json :=
  if status == 401 || status == 403 then
    .error (.http ⟨500, .authFailed status data⟩)
  else if status == 404 then
    .error (.http ⟨404, .notFound url⟩)
  else if status ≥ 500 then
    .error (.http ⟨502, .upstreamError status url⟩)
  else if status ≥ 400 then
    .error (.http ⟨status, .requestError status url data⟩)
  else
    .ok data

/-- `fetch_json` (src/main.py lines 119-162). `exec` maps the cookie jar
attached to the request (`some c` for `{".ROBLOSECURITY": c}`, `none` for
`{}`) to the upstream response; the GET/POST dispatch on `method` (lines
137-150) produces the same `(status, decoded body)` pair in both arms, so
the model does not branch on `method` or `json_body`. Besides the result
and the updated session state, the returned list records the cookie of each
underlying request actually issued, in order — the source issues exactly
one request per call (the `_retry` parameter on line 124 is never used: the
comment on line 152 notes that login-based retry was removed). -/
def fetch_json (method : String) (url : String) (json_body : Option Json)
    (require_auth : Bool) (env : String)
    (st : SessionState) (exec : Option String → HttpResp) :
    Except ApiError Json × List (Option String) × SessionState :=
  match (if require_auth then
          match ensure_cookie env st with
          | .error e => .error e
          | .ok (c, st2) => .ok (some c, st2)
        else
          (.ok (none, st) : Except String (Option String × SessionState))) with
  | .error e => (.error (.runtime e), [], st)
  | .ok (cookie, st2) =>
    let resp := exec cookie
    (validate_status url resp.status resp.body, [cookie], st2)

/-! ## Rolimons price-index cache (src/main.py lines 36-73) -/

/-- A `RuntimeError` raised by `RolimonsCache._refresh`, one constructor per
`raise` site, carrying what the message interpolates:
* `fetchFailed s t` — `f"Falha ao puxar Rolimons: {resp.status} - {text[:200]}"` (line 49)
* `invalidResponse d` — `f"Resposta Rolimons invalida: {data}"` (line 52) -/
inductive RolimonsError where
  | fetchFailed : Nat → String → RolimonsError
  | invalidResponse : Json → RolimonsError
deriving Repr

/-- The `RolimonsCache` state (src/main.py lines 38-42): the item map
`self.items` (id → row, a `Dict[str, List[Any]]` whose values the code
always consumes as indexable rows), the `self.last_update` timestamp and
the TTL. -/
structure RolimonsCache where
  items : List (String × List Json)
  last_update : Int
  ttl : Int
deriving Repr

/-- Python `d.get(k)` on the item map. -/
def dictGet (d : List (String × List Json)) (k : String) : Option (List Json) :=
  (d.find? (fun p => p.1 == k)).map (fun p => p.2)

/-- `RolimonsCache._refresh` (src/main.py lines 44-54), with the upstream
response passed explicitly: `status` and `text` are the HTTP status and raw
text, `success` is `data.get("success")` and `rows` is `data.get("items", {})`
of the decoded body, and `now` is `time.time()` at the assignment on
line 54. Returns the cache state after the call together with the raised
`RuntimeError`, if any: the two `raise` statements (lines 49 and 52) come
before the assignments to `self.items` / `self.last_update` (lines 53-54),
so on failure the state is returned untouched. -/
def RolimonsCache._refresh (c : RolimonsCache) (status : Nat) (text : String)
    (success : Json) (rows : List (String × List Json)) (now : Int) :
    RolimonsCache × Option RolimonsError :=
  if status != 200 then
    (c, some (.fetchFailed status text))
  else if !success.truthy then
    (c, some (.invalidResponse success))
  else
    ({ c with items := rows, last_update := now }, none)

/-- `RolimonsCache.get_items` (src/main.py lines 56-60): refresh when the
map is empty or `now - self.last_update > self.ttl`, otherwise serve the
existing snapshot. The final `Nat` counts the `_refresh` calls performed by
this call (the response arguments are only consumed when a refresh runs). -/
def RolimonsCache.get_items (c : RolimonsCache) (now : Int) (status : Nat)
    (text : String) (success : Json) (rows : List (String × List Json)) :
    (RolimonsCache × Except RolimonsError (List (String × List Json))) × Nat :=
  if c.items.isEmpty || decide (c.ttl < now - c.last_update) then
    match RolimonsCache._refresh c status text success rows now with
    | (c2, some e) => ((c2, .error e), 1)
    | (c2, none) => ((c2, .ok c2.items), 1)
  else
    ((c, .ok c.items), 0)

/-- The row logic of `RolimonsCache.get_limited_price` (src/main.py lines
64-71), applied to `items.get(str(asset_id))`: `if not entry: return None`
(absent or empty row), then `rap = entry[2] if len(entry) > 2 else None`,
then `return rap if isinstance(rap, int) and rap > 0 else None`. -/
def get_limited_price_entry : Option (List Json) → Option Int
  | none => none
  | some row =>
    if row.isEmpty then
      none
    else
      let rap := if 2 < row.length then row.getD 2 .null else .null
      if pyIsInt rap && decide (0 < pyToInt rap) then some (pyToInt rap) else none

/-- `RolimonsCache.get_limited_price` (src/main.py lines 62-71): fetch the
(possibly refreshed) item map via `get_items`, then apply the row lookup.
A `RuntimeError` from the refresh propagates to the caller. The final `Nat`
counts the refreshes performed. -/
def RolimonsCache.get_limited_price (c : RolimonsCache) (asset_id : Int)
    (now : Int) (status : Nat) (text : String) (success : Json)
    (rows : List (String × List Json)) :
    (RolimonsCache × Except RolimonsError (Option Int)) × Nat :=
  match c.get_items now status text success rows with
  | ((c2, .error e), n) => ((c2, .error e), n)
  | ((c2, .ok items), n) =>
    ((c2, .ok (get_limited_price_entry (dictGet items (toString asset_id)))), n)

/-! ## `GET /asset-to-bundle/{asset_id}` (src/main.py lines 166-202) -/

/-- `asset_to_bundle` (src/main.py lines 166-202), with the two upstream
responses passed explicitly: `bundlesResp` answers
`GET {CATALOG_BASE}/v1/assets/{asset_id}/bundles` and `detailsResp` answers
`GET {CATALOG_BASE}/v1/bundles/{bundle_id}/details`. Both calls go through
`fetch_json` with `require_auth=False`. The final `Nat` counts the
bundle-details requests actually issued (0 when the handler returns before
the second fetch). -/
def asset_to_bundle (asset_id : Int) (env : String) (st : SessionState)
    (bundlesResp detailsResp : HttpResp) :
    Except ApiError Json × Nat :=
  match fetch_json "GET" (CATALOG_BASE ++ "/v1/assets/" ++ toString asset_id ++ "/bundles")
      none false env st (fun _ => bundlesResp) with
  | (.error e, _, _) => (.error e, 0)
  | (.ok bundles_data, _, _) =>
    let bundles := (bundles_data.get "data").orElse (Json.arr [])
    if !bundles.truthy then
      (.error (.http ⟨404, .noBundles⟩), 0)
    else
      let bundle := bundles.index0
      let bundle_id := bundle.get "id"
      match fetch_json "GET" (CATALOG_BASE ++ "/v1/bundles/" ++ bundle_id.pyStr ++ "/details")
          none false env st (fun _ => detailsResp) with
      | (.error e, _, _) => (.error e, 1)
      | (.ok details, _, _) =>
        let product := (details.get "product").orElse (Json.obj [])
        let price := product.get "priceInRobux"
        (.ok (Json.obj [("assetId", Json.int asset_id),
                        ("bundleId", bundle_id),
                        ("bundleName", bundle.get "name"),
                        ("priceInRobux", price)]), 1)

/-! ## `POST /items/details` (src/main.py lines 206-271) -/

/-- One element of the `normalized` list built by `items_details`
(src/main.py lines 259-269). -/
structure NormalizedItem where
  id : Json
  itemType : Json
  name : Json
  priceInRobux : Json
  lowestPrice : Json
  isLimited : Bool
  isLimitedUnique : Bool
deriving Repr

/-- The per-item normalization of `items_details` (src/main.py lines
239-269). `rap_lookup` is the outcome of
`rolimons_cache.get_limited_price(item.get("id"))`: an exception is caught
(lines 251-253) and degrades to `rap = None`. -/
def normalize_item (item : Json) (rap_lookup : Except RolimonsError (Option Int)) :
    NormalizedItem :=
  let product := (item.get "product").orElse (Json.obj [])
  let is_limited := (product.get "IsLimited").truthy
    || (product.get "IsLimitedUnique").truthy
    || (product.get "isLimited").truthy
    || (product.get "isLimitedUnique").truthy
  let price_in_robux := product.get "priceInRobux"
  let lowest_price := product.get "lowestPrice"
  let prices :=
    if is_limited && (!pyIsInt lowest_price || decide (pyToInt lowest_price ≤ 0)) then
      let rap : Option Int :=
        match rap_lookup with
        | .error _ => none
        | .ok r => r
      match rap with
      | some r => if r != 0 && decide (0 < r) then (Json.int r, Json.int r) else (price_in_robux, lowest_price)
      | none => (price_in_robux, lowest_price)
    else
      (price_in_robux, lowest_price)
  { id := item.get "id"
    itemType := item.get "itemType"
    name := item.get "name"
    priceInRobux := prices.1
    lowestPrice := prices.2
    isLimited := is_limited
    isLimitedUnique := (product.get "IsLimitedUnique").truthy
      || (product.get "isLimitedUnique").truthy }

/-- The normalization loop of `items_details` (src/main.py lines 238-269):
every element of the `data` list is normalized; `lookup` gives, per
`item.get("id")`, the outcome of the cache lookup performed for the items
that need the backfill (its value is ignored for items that do not). -/
def items_details_normalize (lookup : Json → Except RolimonsError (Option Int))
    (data : List Json) : List NormalizedItem :=
  data.map (fun item => normalize_item item (lookup (item.get "id")))

/-- `for item in data` iterates a JSON array; the source's `data` variable
is `details.get("data") or []`. -/
def Json.asArr : Json → List Json
  | .arr xs => xs
  | _ => []

/-- The `items_payload` batch body of `items_details` (src/main.py lines
219-227): each id listed with item-type `"Asset"`. -/
def items_payload (asset_ids : List Int) : Json :=
  Json.obj [("items", Json.arr (asset_ids.map (fun asset_id =>
    Json.obj [("itemType", Json.str "Asset"), ("id", Json.int asset_id)])))]

/-- `items_details` (src/main.py lines 206-271): empty input short-circuits
to `[]`; otherwise one authenticated `POST /v1/catalog/items/details`
(response passed via `exec`) and the normalization loop over its `data`
list. -/
def items_details (asset_ids : List Int) (env : String) (st : SessionState)
    (exec : Option String → HttpResp)
    (lookup : Json → Except RolimonsError (Option Int)) :
    Except ApiError (List NormalizedItem) :=
  if asset_ids.isEmpty then
    .ok []
  else
    match fetch_json "POST" (CATALOG_BASE ++ "/v1/catalog/items/details")
        (some (items_payload asset_ids)) true env st exec with
    | (.error e, _, _) => .error e
    | (.ok details, _, _) =>
      let data := (details.get "data").orElse (Json.arr [])
      .ok (items_details_normalize lookup data.asArr)

/-! ## Helper lemmas -/

/-- Any status below 400 passes the validation chain and returns the body. -/
theorem validate_status_of_lt {url : String} {status : Nat} {data : Json}
    (h : status < 400) : validate_status url status data = .ok data := by
  unfold validate_status
  rw [if_neg (by simp; omega), if_neg (by simp; omega),
      if_neg (by omega), if_neg (by omega)]

/-- A truthy `Option String` is a nonempty `some`. -/
theorem optTruthy_of_ne {s : String} (h : s ≠ "") : optTruthy (some s) = true := by
  show (!s.isEmpty) = true
  cases hb : s.isEmpty with
  | false => rfl
  | true => exact absurd ((String.isEmpty_iff s).mp hb) h

/-- C3, confirmed: for every outbound request the status-validation chain of
`fetch_json` maps, for statuses outside the 401/403 auth handling, 404 to a
caller-visible 404 `NotFound`, every status ≥ 500 to the single bad-gateway
kind (caller-visible 502, distinct from echoing the upstream status,
carrying the original code and URL), every other 400-499 status to a
rejection carrying the original status, URL and decoded body, and every
status below 400 to the decoded body. -/
theorem validate_status_mapping (url : String) (status : Nat) (data : Json)
    (h401 : status ≠ 401) (h403 : status ≠ 403) :
    (status = 404 →
      validate_status url status data = .error (.http ⟨404, .notFound url⟩)) ∧
    (500 ≤ status →
      validate_status url status data
        = .error (.http ⟨502, .upstreamError status url⟩)) ∧
    (400 ≤ status → status < 500 → status ≠ 404 →
      validate_status url status data
        = .error (.http ⟨status, .requestError status url data⟩)) ∧
    (status < 400 → validate_status url status data = .ok data) := by
  refine ⟨?_, ?_, ?_, fun h => validate_status_of_lt h⟩
  · intro h
    subst h
    rfl
  · intro h
    unfold validate_status
    rw [if_neg (by simp; omega), if_neg (by simp; omega), if_pos (by omega)]
  · intro h1 h2 h3
    unfold validate_status
    rw [if_neg (by simp; omega), if_neg (by simp; omega),
        if_neg (by omega), if_pos (by omega)]

/-- C3 witness: the mapping evaluated at the concrete status 429. -/
theorem validate_status_mapping_witness :
    ((429 : Nat) = 404 →
      validate_status "https://u" 429 Json.null
        = .error (.http ⟨404, .notFound "https://u"⟩)) ∧
    (500 ≤ (429 : Nat) →
      validate_status "https://u" 429 Json.null
        = .error (.http ⟨502, .upstreamError 429 "https://u"⟩)) ∧
    (400 ≤ (429 : Nat) → (429 : Nat) < 500 → (429 : Nat) ≠ 404 →
      validate_status "https://u" 429 Json.null
        = .error (.http ⟨429, .requestError 429 "https://u" Json.null⟩)) ∧
    ((429 : Nat) < 400 → validate_status "https://u" 429 Json.null = .ok Json.null) :=
  validate_status_mapping "https://u" 429 Json.null (by decide) (by decide)

/-- C9, confirmed: when the module-level startup succeeds (the configured
cookie, stripped, is nonempty — otherwise a `RuntimeError` refuses startup),
the in-memory token is the configured value, and `ensure_cookie` returns it
through its first branch without touching the disk-load or no-credential
paths and without modifying the state. -/
theorem startup_ensure_cookie (envRaw : String) (st : SessionState)
    (h : startup envRaw = .ok st) :
    st.current = some (pyStrip envRaw) ∧
    ensure_cookie (pyStrip envRaw) st = .ok (pyStrip envRaw, st) := by
  unfold startup at h
  by_cases he : (pyStrip envRaw).isEmpty
  · simp [he] at h
  · simp [he] at h
    have hcur : st.current = some (pyStrip envRaw) := by rw [← h]
    refine ⟨hcur, ?_⟩
    unfold ensure_cookie
    rw [hcur]
    have hne : optTruthy (some (pyStrip envRaw)) = true := by
      show (!(pyStrip envRaw).isEmpty) = true
      simpa using he
    rw [if_pos hne]
    simp [hcur]

/-- C9 witness: startup with the configured cookie `" tok "` (stripped to
`"tok"`). -/
theorem startup_ensure_cookie_witness :
    (SessionState.mk (some "tok") (some "tok")).current = some (pyStrip " tok ") ∧
    ensure_cookie (pyStrip " tok ") (SessionState.mk (some "tok") (some "tok"))
      = .ok (pyStrip " tok ", SessionState.mk (some "tok") (some "tok")) :=
  startup_ensure_cookie " tok " (SessionState.mk (some "tok") (some "tok")) (by rfl)

/-- C10, confirmed: the third-field access in `get_limited_price` is guarded
by `len(entry) > 2`, so an empty row or a row with fewer than three fields
yields `None`, not an `IndexError`; the lookup is total over rows. -/
theorem short_row_lookup_absent (row : List Json) (h : row.length < 3) :
    get_limited_price_entry (some row) = none ∧
    get_limited_price_entry none = none := by
  refine ⟨?_, rfl⟩
  simp only [get_limited_price_entry]
  by_cases he : row.isEmpty
  · rw [if_pos he]
  · rw [if_neg he]
    have h2 : ¬ (2 < row.length) := by omega
    rw [if_neg h2]
    rfl

/-- C10 witness: the two-field row `["Dominus", "DOM"]`. -/
theorem short_row_lookup_absent_witness :
    get_limited_price_entry (some [Json.str "Dominus", Json.str "DOM"]) = none ∧
    get_limited_price_entry none = none :=
  short_row_lookup_absent [Json.str "Dominus", Json.str "DOM"] (by decide)

/-- Unfolding of the row lookup for a present row. -/
theorem get_limited_price_entry_some (row : List Json) :
    get_limited_price_entry (some row)
      = (if row.isEmpty then none
         else if pyIsInt (if 2 < row.length then row.getD 2 Json.null else Json.null)
              && decide (0 < pyToInt (if 2 < row.length then row.getD 2 Json.null else Json.null))
              then some (pyToInt (if 2 < row.length then row.getD 2 Json.null else Json.null))
              else none) := rfl

/-- C4, confirmed: a `get_items` call refreshes the snapshot exactly when
the item map is empty or the age `now - fetchedAt` exceeds the TTL; it
performs at most one refresh; a fresh non-empty snapshot is served as-is
with zero refreshes and unchanged state. -/
theorem get_items_refresh_policy (c : RolimonsCache) (now : Int) (status : Nat)
    (text : String) (success : Json) (rows : List (String × List Json)) :
    ((c.get_items now status text success rows).2 = 1 ↔
        (c.items = [] ∨ c.ttl < now - c.last_update)) ∧
    (c.get_items now status text success rows).2 ≤ 1 ∧
    (¬(c.items = [] ∨ c.ttl < now - c.last_update) →
      c.get_items now status text success rows = ((c, .ok c.items), 0)) := by
  unfold RolimonsCache.get_items
  by_cases hcond : c.items = [] ∨ c.ttl < now - c.last_update
  · have hb : (c.items.isEmpty || decide (c.ttl < now - c.last_update)) = true := by
      rcases hcond with h | h
      · simp [h]
      · simp [h]
    rw [if_pos hb]
    cases hr : RolimonsCache._refresh c status text success rows now with
    | mk c2 oe =>
      cases oe <;> simp [hcond]
  · have hb : (c.items.isEmpty || decide (c.ttl < now - c.last_update)) = false := by
      push_neg at hcond
      simp [hcond.1, hcond.2]
    rw [if_neg (by simp [hb])]
    simp [hcond]

/-- C4 witness: a fresh snapshot holding one row, age 100 against TTL 600. -/
theorem get_items_refresh_policy_witness :
    ((RolimonsCache.get_items ⟨[("1", [Json.null])], 100, 600⟩ 200 200 "" (Json.bool true) []).2 = 1 ↔
        ([("1", [Json.null])] = ([] : List (String × List Json)) ∨ (600 : Int) < 200 - 100)) ∧
    (RolimonsCache.get_items ⟨[("1", [Json.null])], 100, 600⟩ 200 200 "" (Json.bool true) []).2 ≤ 1 ∧
    (¬(([("1", [Json.null])] : List (String × List Json)) = [] ∨ (600 : Int) < 200 - 100) →
      RolimonsCache.get_items ⟨[("1", [Json.null])], 100, 600⟩ 200 200 "" (Json.bool true) []
        = ((⟨[("1", [Json.null])], 100, 600⟩, .ok [("1", [Json.null])]), 0)) :=
  get_items_refresh_policy ⟨[("1", [Json.null])], 100, 600⟩ 200 200 "" (Json.bool true) []

/-- C5, confirmed: a failed refresh (non-200 status, or a response whose
`success` indicator is falsy) raises a `RuntimeError` before the
assignments to `self.items` / `self.last_update`, so the cache state is
returned exactly as it was; through `get_limited_price` the error is
surfaced to the caller with the state untouched. -/
theorem refresh_failure_preserves_state (c : RolimonsCache) (asset_id : Int)
    (now : Int) (status : Nat) (text : String) (success : Json)
    (rows : List (String × List Json))
    (htrig : c.items = [] ∨ c.ttl < now - c.last_update)
    (hfail : status ≠ 200 ∨ success.truthy = false) :
    (∃ e, RolimonsCache._refresh c status text success rows now = (c, some e)) ∧
    (∃ e, c.get_limited_price asset_id now status text success rows
            = ((c, .error e), 1)) := by
  have href : ∃ e, RolimonsCache._refresh c status text success rows now = (c, some e) := by
    unfold RolimonsCache._refresh
    by_cases h200 : status = 200
    · subst h200
      rcases hfail with h | h
      · exact absurd rfl h
      · refine ⟨.invalidResponse success, ?_⟩
        rw [if_neg (by simp), if_pos (by simp [h])]
    · refine ⟨.fetchFailed status text, ?_⟩
      rw [if_pos (by simp [h200])]
  refine ⟨href, ?_⟩
  obtain ⟨e, he⟩ := href
  refine ⟨e, ?_⟩
  unfold RolimonsCache.get_limited_price RolimonsCache.get_items
  have hb : (c.items.isEmpty || decide (c.ttl < now - c.last_update)) = true := by
    rcases htrig with h | h
    · simp [h]
    · simp [h]
  rw [if_pos hb, he]

/-- C5 witness: an empty snapshot and a 500 price-index response. -/
theorem refresh_failure_preserves_state_witness :
    (∃ e, RolimonsCache._refresh ⟨[], 0, 600⟩ 500 "oops" Json.null [("123", [Json.int 1])] 0
            = (⟨[], 0, 600⟩, some e)) ∧
    (∃ e, RolimonsCache.get_limited_price ⟨[], 0, 600⟩ 123 0 500 "oops" Json.null
            [("123", [Json.int 1])]
            = ((⟨[], 0, 600⟩, .error e), 1)) :=
  refresh_failure_preserves_state ⟨[], 0, 600⟩ 123 0 500 "oops" Json.null
    [("123", [Json.int 1])] (Or.inl rfl) (Or.inl (by decide))

/-- C6, confirmed: served from a fresh snapshot, `get_limited_price`
returns `.ok` (never an error) of the row lookup; an absent id yields
`none`; a third field that is not a Python int yields `none`; an integer
third field yields `none` when non-positive and exactly that integer when
positive. -/
theorem get_limited_price_spec (c : RolimonsCache) (asset_id : Int) (now : Int)
    (status : Nat) (text : String) (success : Json)
    (rows : List (String × List Json))
    (hne : c.items ≠ []) (hfresh : now - c.last_update ≤ c.ttl) :
    (c.get_limited_price asset_id now status text success rows
       = ((c, .ok (get_limited_price_entry (dictGet c.items (toString asset_id)))), 0)) ∧
    (dictGet c.items (toString asset_id) = none →
       get_limited_price_entry (dictGet c.items (toString asset_id)) = none) ∧
    (∀ row : List Json, dictGet c.items (toString asset_id) = some row →
       pyIsInt (if 2 < row.length then row.getD 2 Json.null else Json.null) = false →
       get_limited_price_entry (some row) = none) ∧
    (∀ row : List Json, ∀ m : Int,
       dictGet c.items (toString asset_id) = some row →
       (if 2 < row.length then row.getD 2 Json.null else Json.null) = Json.int m →
       ((m ≤ 0 → get_limited_price_entry (some row) = none) ∧
        (0 < m → get_limited_price_entry (some row) = some m))) := by
  refine ⟨?_, ?_, ?_, ?_⟩
  · unfold RolimonsCache.get_limited_price RolimonsCache.get_items
    have hb : (c.items.isEmpty || decide (c.ttl < now - c.last_update)) = false := by
      simp [hne, not_lt.mpr hfresh]
    rw [if_neg (by simp [hb])]
  · intro h
    rw [h]
    rfl
  · intro row hrow hpy
    rw [get_limited_price_entry_some]
    by_cases he : row.isEmpty
    · rw [if_pos he]
    · rw [if_neg he, if_neg (fun hcontra => by rw [hpy] at hcontra; simp at hcontra)]
  · intro row m hrow hrap
    have hrowne : row.isEmpty = false := by
      cases he : row.isEmpty with
      | false => rfl
      | true =>
        rw [List.isEmpty_iff.mp he] at hrap
        simp at hrap
    constructor
    · intro hm
      rw [get_limited_price_entry_some, if_neg (by simp [hrowne]), if_neg]
      rw [hrap]
      simp [pyIsInt, pyToInt]
      omega
    · intro hm
      rw [get_limited_price_entry_some, if_neg (by simp [hrowne]), if_pos]
      · rw [hrap]
        rfl
      · rw [hrap]
        simp [pyIsInt, pyToInt]
        omega

/-- C6 witness: the spec scenario row `["Dominus", "DOM", 500000, 520000,
500000]` under id `"123"` in a fresh snapshot. -/
theorem get_limited_price_spec_witness :
    (RolimonsCache.get_limited_price
        ⟨[("123", [Json.str "Dominus", Json.str "DOM", Json.int 500000,
                   Json.int 520000, Json.int 500000])], 100, 600⟩ 123 200 200 "" Json.null []
       = ((⟨[("123", [Json.str "Dominus", Json.str "DOM", Json.int 500000,
               Json.int 520000, Json.int 500000])], 100, 600⟩,
           .ok (get_limited_price_entry (dictGet
             [("123", [Json.str "Dominus", Json.str "DOM", Json.int 500000,
                       Json.int 520000, Json.int 500000])] (toString (123 : Int))))), 0)) ∧
    (dictGet [("123", [Json.str "Dominus", Json.str "DOM", Json.int 500000,
                       Json.int 520000, Json.int 500000])] (toString (123 : Int)) = none →
       get_limited_price_entry (dictGet
         [("123", [Json.str "Dominus", Json.str "DOM", Json.int 500000,
                   Json.int 520000, Json.int 500000])] (toString (123 : Int))) = none) ∧
    (∀ row : List Json,
       dictGet [("123", [Json.str "Dominus", Json.str "DOM", Json.int 500000,
                         Json.int 520000, Json.int 500000])] (toString (123 : Int)) = some row →
       pyIsInt (if 2 < row.length then row.getD 2 Json.null else Json.null) = false →
       get_limited_price_entry (some row) = none) ∧
    (∀ row : List Json, ∀ m : Int,
       dictGet [("123", [Json.str "Dominus", Json.str "DOM", Json.int 500000,
                         Json.int 520000, Json.int 500000])] (toString (123 : Int)) = some row →
       (if 2 < row.length then row.getD 2 Json.null else Json.null) = Json.int m →
       ((m ≤ 0 → get_limited_price_entry (some row) = none) ∧
        (0 < m → get_limited_price_entry (some row) = some m))) :=
  get_limited_price_spec
    ⟨[("123", [Json.str "Dominus", Json.str "DOM", Json.int 500000,
               Json.int 520000, Json.int 500000])], 100, 600⟩ 123 200 200 "" Json.null []
    (List.cons_ne_nil _ _) (by decide)

/-- C1 counterexample: with `require_auth=True`, a valid in-memory cookie
and an upstream that answers 401, `fetch_json` fails immediately with the
500 auth error after exactly ONE underlying request — it does not refresh
the session and retry, so the request log has length 1, not the 2 the claim
requires before failing. -/
theorem fetch_json_auth_retry_counterexample :
    fetch_json "GET" "https://u" none true "tok"
        (SessionState.mk (some "tok") (some "tok")) (fun _ => ⟨401, Json.null⟩)
      = (.error (.http ⟨500, .authFailed 401 Json.null⟩), [some "tok"],
         SessionState.mk (some "tok") (some "tok")) ∧
    (fetch_json "GET" "https://u" none true "tok"
        (SessionState.mk (some "tok") (some "tok")) (fun _ => ⟨401, Json.null⟩)).2.1.length
      ≠ 2 := by
  exact ⟨rfl, by decide⟩

/-- C1, amended: on a 401 or 403 from an authenticated fetch, `fetch_json`
raises `AuthenticationFailed` (surfaced as status 500) immediately, with no
`forceRefresh` and no retry: exactly one underlying request is issued per
logical call (the `_retry` parameter is dead and the login-based retry was
removed — see the comment on src/main.py line 152). -/
theorem fetch_json_auth_failure_no_retry (method url env tok : String)
    (json_body : Option Json) (st : SessionState)
    (exec : Option String → HttpResp)
    (hcur : st.current = some tok) (hne : tok ≠ "")
    (hstatus : (exec (some tok)).status = 401 ∨ (exec (some tok)).status = 403) :
    fetch_json method url json_body true env st exec
      = (.error (.http ⟨500, .authFailed (exec (some tok)).status (exec (some tok)).body⟩),
         [some tok], st) := by
  unfold fetch_json
  unfold ensure_cookie
  rw [hcur, if_pos (optTruthy_of_ne hne)]
  show (validate_status url (exec (some tok)).status (exec (some tok)).body,
        [some tok], st) = _
  unfold validate_status
  rcases hstatus with h | h <;>
  · rw [if_pos (by simp [h])]

/-- C1 witness: the amended behavior at a concrete always-401 upstream. -/
theorem fetch_json_auth_failure_no_retry_witness :
    fetch_json "GET" "https://w" none true "e"
        (SessionState.mk (some "t") none) (fun _ => ⟨403, Json.str "denied"⟩)
      = (.error (.http ⟨500,
           .authFailed ((fun (_ : Option String) => HttpResp.mk 403 (Json.str "denied")) (some "t")).status
             ((fun (_ : Option String) => HttpResp.mk 403 (Json.str "denied")) (some "t")).body⟩),
         [some "t"], SessionState.mk (some "t") none) :=
  fetch_json_auth_failure_no_retry "GET" "https://w" "e" "t" none
    (SessionState.mk (some "t") none) (fun _ => ⟨403, Json.str "denied"⟩)
    rfl (by decide) (Or.inr rfl)

/-- C2 counterexample: with `require_auth=False` and an upstream 401, the
request indeed carries no cookie, but the outcome is the 500
`AuthenticationFailed` error, NOT a `RequestRejected` carrying the original
401 status: the 401/403 mapping on src/main.py line 153 is unconditional. -/
theorem fetch_json_noauth_401_counterexample :
    fetch_json "GET" "https://u" none false "e"
        (SessionState.mk (some "t") (some "t")) (fun _ => ⟨401, Json.null⟩)
      = (.error (.http ⟨500, .authFailed 401 Json.null⟩), [none],
         SessionState.mk (some "t") (some "t")) ∧
    (fetch_json "GET" "https://u" none false "e"
        (SessionState.mk (some "t") (some "t")) (fun _ => ⟨401, Json.null⟩)).1
      ≠ .error (.http ⟨401, .requestError 401 "https://u" Json.null⟩) := by
  refine ⟨rfl, ?_⟩
  show Except.error (ApiError.http ⟨500, .authFailed 401 Json.null⟩) ≠ _
  simp

/-- C2, amended: when `require_auth` is false no cookie/token is attached
(the single underlying request carries `none`), but a 401 or 403 response
is still mapped to the 500 `AuthenticationFailed` outcome rather than
falling through the generic 4xx rule as a `RequestRejected` with the
original status: the auth-failure mapping in `fetch_json` does not depend
on `require_auth`. -/
theorem fetch_json_noauth (method url env : String) (json_body : Option Json)
    (st : SessionState) (exec : Option String → HttpResp) :
    fetch_json method url json_body false env st exec
      = (validate_status url (exec none).status (exec none).body, [none], st) ∧
    ((exec none).status = 401 ∨ (exec none).status = 403 →
      (fetch_json method url json_body false env st exec).1
        = .error (.http ⟨500, .authFailed (exec none).status (exec none).body⟩)) := by
  refine ⟨rfl, ?_⟩
  intro hstatus
  show validate_status url (exec none).status (exec none).body = _
  unfold validate_status
  rcases hstatus with h | h <;>
  · rw [if_pos (by simp [h])]

/-- C2 witness: the amended behavior at a concrete unauthenticated 403. -/
theorem fetch_json_noauth_witness :
    fetch_json "GET" "https://w" none false "e"
        (SessionState.mk none none) (fun _ => ⟨403, Json.null⟩)
      = (validate_status "https://w"
           ((fun (_ : Option String) => HttpResp.mk 403 Json.null) none).status
           ((fun (_ : Option String) => HttpResp.mk 403 Json.null) none).body,
         [none], SessionState.mk none none) ∧
    (((fun (_ : Option String) => HttpResp.mk 403 Json.null) none).status = 401 ∨
      ((fun (_ : Option String) => HttpResp.mk 403 Json.null) none).status = 403 →
      (fetch_json "GET" "https://w" none false "e"
          (SessionState.mk none none) (fun _ => ⟨403, Json.null⟩)).1
        = .error (.http ⟨500,
            .authFailed ((fun (_ : Option String) => HttpResp.mk 403 Json.null) none).status
              ((fun (_ : Option String) => HttpResp.mk 403 Json.null) none).body⟩)) :=
  fetch_json_noauth "GET" "https://w" "e" none (SessionState.mk none none)
    (fun _ => ⟨403, Json.null⟩)

/-- A concrete limited catalog item whose `lowestPrice` is `0` (≤ 0, so the
backfill triggers) and whose `priceInRobux` is `5`. -/
def limitedItemZero : Json :=
  Json.obj [("id", Json.int 1),
            ("product", Json.obj [("IsLimited", Json.bool true),
                                  ("priceInRobux", Json.int 5),
                                  ("lowestPrice", Json.int 0)])]

/-- C7 counterexample: for a limited item with `lowestPrice = 0` whose cache
lookup raises, the error is swallowed but the prices are left at their
catalog values `0` and `5` — they do NOT "remain null" as the claim states. -/
theorem backfill_failure_counterexample :
    (normalize_item limitedItemZero (.error (.fetchFailed 500 ""))).isLimited = true ∧
    (normalize_item limitedItemZero (.error (.fetchFailed 500 ""))).lowestPrice = Json.int 0 ∧
    (normalize_item limitedItemZero (.error (.fetchFailed 500 ""))).priceInRobux = Json.int 5 ∧
    Json.int 0 ≠ Json.null := by
  refine ⟨rfl, rfl, rfl, by simp⟩

/-- C7, amended: for a normalized item with `isLimited` true and
`lowestPrice` missing or ≤ 0, a cache lookup succeeding with a positive
value overwrites both `lowestPrice` and `priceInRobux` with that value; a
lookup failure is swallowed and leaves both prices unchanged at their
catalog values (null stays null); and normalization always completes for
every item of the batch. -/
theorem backfill_best_effort (item : Json) (v : Int) (e : RolimonsError)
    (hlim : ((((item.get "product").orElse (Json.obj [])).get "IsLimited").truthy
        || (((item.get "product").orElse (Json.obj [])).get "IsLimitedUnique").truthy
        || (((item.get "product").orElse (Json.obj [])).get "isLimited").truthy
        || (((item.get "product").orElse (Json.obj [])).get "isLimitedUnique").truthy) = true)
    (hlp : (!pyIsInt (((item.get "product").orElse (Json.obj [])).get "lowestPrice")
        || decide (pyToInt (((item.get "product").orElse (Json.obj [])).get "lowestPrice") ≤ 0))
        = true) :
    (0 < v →
      (normalize_item item (.ok (some v))).priceInRobux = Json.int v ∧
      (normalize_item item (.ok (some v))).lowestPrice = Json.int v) ∧
    ((normalize_item item (.error e)).priceInRobux
        = ((item.get "product").orElse (Json.obj [])).get "priceInRobux" ∧
     (normalize_item item (.error e)).lowestPrice
        = ((item.get "product").orElse (Json.obj [])).get "lowestPrice") ∧
    (∀ lookup : Json → Except RolimonsError (Option Int), ∀ data : List Json,
      (items_details_normalize lookup data).length = data.length) := by
  refine ⟨?_, ?_, fun lookup data => by simp [items_details_normalize]⟩
  · intro hv
    have hvb : (v != 0 && decide (0 < v)) = true := by
      simp only [Bool.and_eq_true, bne_iff_ne, ne_eq, decide_eq_true_eq]
      omega
    constructor <;>
    · simp only [normalize_item, hlim, hlp, Bool.true_and, if_true, hvb]
  · constructor <;>
    · simp only [normalize_item, hlim, hlp, Bool.true_and, if_true]

/-- C7 witness: the amended behavior at the concrete item with
`lowestPrice = 0` (spec scenario: a positive cache value 750000 overwrites
both prices; a failed lookup leaves them at their catalog values). -/
theorem backfill_best_effort_witness :
    (0 < (750000 : Int) →
      (normalize_item limitedItemZero (.ok (some 750000))).priceInRobux = Json.int 750000 ∧
      (normalize_item limitedItemZero (.ok (some 750000))).lowestPrice = Json.int 750000) ∧
    ((normalize_item limitedItemZero (.error (.fetchFailed 500 "down"))).priceInRobux
        = ((limitedItemZero.get "product").orElse (Json.obj [])).get "priceInRobux" ∧
     (normalize_item limitedItemZero (.error (.fetchFailed 500 "down"))).lowestPrice
        = ((limitedItemZero.get "product").orElse (Json.obj [])).get "lowestPrice") ∧
    (∀ lookup : Json → Except RolimonsError (Option Int), ∀ data : List Json,
      (items_details_normalize lookup data).length = data.length) :=
  backfill_best_effort limitedItemZero 750000 (.fetchFailed 500 "down") rfl rfl

/-- C8, confirmed: when the bundles-list request itself succeeds, an empty
or absent `data` list makes `asset_to_bundle` fail 404 ("No bundles for
this asset") without ever calling the bundle-details endpoint; a non-empty
list selects its FIRST bundle, the details endpoint is called exactly once,
and on success the summary is built from that first bundle and the details
response. -/
theorem asset_to_bundle_spec (asset_id : Int) (env : String) (st : SessionState)
    (bundlesResp detailsResp : HttpResp)
    (hb : bundlesResp.status < 400) :
    (((bundlesResp.body.get "data").orElse (Json.arr [])).truthy = false →
       asset_to_bundle asset_id env st bundlesResp detailsResp
         = (.error (.http ⟨404, .noBundles⟩), 0)) ∧
    (∀ b bs, bundlesResp.body.get "data" = Json.arr (b :: bs) →
       (asset_to_bundle asset_id env st bundlesResp detailsResp).2 = 1 ∧
       (detailsResp.status < 400 →
         asset_to_bundle asset_id env st bundlesResp detailsResp
           = (.ok (Json.obj [("assetId", Json.int asset_id),
                             ("bundleId", b.get "id"),
                             ("bundleName", b.get "name"),
                             ("priceInRobux",
                               ((detailsResp.body.get "product").orElse
                                 (Json.obj [])).get "priceInRobux")]), 1))) := by
  have hfetch : fetch_json "GET"
      (CATALOG_BASE ++ "/v1/assets/" ++ toString asset_id ++ "/bundles") none
      false env st (fun _ => bundlesResp)
      = (.ok bundlesResp.body, [none], st) := by
    show (validate_status _ bundlesResp.status bundlesResp.body, [none], st) = _
    rw [validate_status_of_lt hb]
  constructor
  · intro hempty
    unfold asset_to_bundle
    rw [hfetch]
    simp [hempty]
  · intro b bs hdata
    have hb2 : (bundlesResp.body.get "data").orElse (Json.arr []) = Json.arr (b :: bs) := by
      rw [hdata]
      unfold Json.orElse
      rw [if_pos (by simp [Json.truthy])]
    have hfetch2 : fetch_json "GET"
        (CATALOG_BASE ++ "/v1/bundles/" ++ ((Json.arr (b :: bs)).index0.get "id").pyStr
          ++ "/details") none false env st (fun _ => detailsResp)
        = (validate_status
            (CATALOG_BASE ++ "/v1/bundles/" ++ ((Json.arr (b :: bs)).index0.get "id").pyStr
              ++ "/details") detailsResp.status detailsResp.body, [none], st) := rfl
    constructor
    · unfold asset_to_bundle
      rw [hfetch]
      show (if !((bundlesResp.body.get "data").orElse (Json.arr [])).truthy
            then (Except.error (ApiError.http ⟨404, Detail.noBundles⟩), 0)
            else _).2 = 1
      rw [hb2]
      rw [if_neg (by simp [Json.truthy])]
      cases hval : validate_status
          (CATALOG_BASE ++ "/v1/bundles/" ++ ((Json.arr (b :: bs)).index0.get "id").pyStr
            ++ "/details") detailsResp.status detailsResp.body with
      | error e =>
        rw [show (Json.arr (b :: bs)).index0 = b from rfl] at hval ⊢
        simp only [hfetch2, hval]
        rw [show (Json.arr (b :: bs)).index0 = b from rfl] at hfetch2
        simp [hfetch2, hval]
      | ok d =>
        rw [show (Json.arr (b :: bs)).index0 = b from rfl] at hval hfetch2 ⊢
        simp [hfetch2, hval]
    · intro hd
      unfold asset_to_bundle
      rw [hfetch]
      show (if !((bundlesResp.body.get "data").orElse (Json.arr [])).truthy
            then (Except.error (ApiError.http ⟨404, Detail.noBundles⟩), 0)
            else _) = _
      rw [hb2]
      rw [if_neg (by simp [Json.truthy])]
      rw [show (Json.arr (b :: bs)).index0 = b from rfl] at hfetch2 ⊢
      simp [hfetch2, validate_status_of_lt hd]

/-- The bundles-list response of the spec scenario: one bundle, id 7,
named "Cool Bundle". -/
def coolBundlesResp : HttpResp :=
  ⟨200, Json.obj [("data", Json.arr [Json.obj [("id", Json.int 7),
                                               ("name", Json.str "Cool Bundle")]])]⟩

/-- The bundle-details response of the spec scenario: product price 250. -/
def coolDetailsResp : HttpResp :=
  ⟨200, Json.obj [("product", Json.obj [("priceInRobux", Json.int 250)])]⟩

/-- C8 witness: the spec scenario `resolveBundle(42)` with the concrete
bundles-list and bundle-details responses above. -/
theorem asset_to_bundle_spec_witness :
    (((coolBundlesResp.body.get "data").orElse (Json.arr [])).truthy = false →
       asset_to_bundle 42 "e" (SessionState.mk (some "t") none) coolBundlesResp coolDetailsResp
         = (.error (.http ⟨404, .noBundles⟩), 0)) ∧
    (∀ b bs, coolBundlesResp.body.get "data" = Json.arr (b :: bs) →
       (asset_to_bundle 42 "e" (SessionState.mk (some "t") none) coolBundlesResp coolDetailsResp).2 = 1 ∧
       (coolDetailsResp.status < 400 →
         asset_to_bundle 42 "e" (SessionState.mk (some "t") none) coolBundlesResp coolDetailsResp
           = (.ok (Json.obj [("assetId", Json.int 42),
                             ("bundleId", b.get "id"),
                             ("bundleName", b.get "name"),
                             ("priceInRobux",
                               ((coolDetailsResp.body.get "product").orElse
                                 (Json.obj [])).get "priceInRobux")]), 1))) :=
  asset_to_bundle_spec 42 "e" (SessionState.mk (some "t") none)
    coolBundlesResp coolDetailsResp (by decide)
